import Mathlib

/-
Shallow embedding of the incident-analysis pipeline of this repository:
  src/app/services/analysis/incident_analysis.py
  src/app/services/llm/gpt_3_5_turbo.py
Numeric values (index values, means) are modelled as rationals; Python
exceptions are modelled with Option/Except (`none` / `.error` = the call
raises); external collaborators (Earth Engine, the geocoding HTTP call,
the OpenAI client, `json.loads`) are passed in as explicit inputs or
function parameters, as the spec treats them as boundary interfaces.
-/

/-- Calendar date carried by a satellite scene (the `Date` column of the
pandas DataFrames). -/
structure DateYMD where
  year : Nat
  month : Nat
  day : Nat
deriving DecidableEq, Repr

/-- A cell of a pandas DataFrame column as used by this module: a float
(index value), a string (month name), an integer (month / day number) or a
date. -/
inductive PyVal where
  | rat (q : ℚ)
  | str (s : String)
  | int (n : Int)
  | date (d : DateYMD)
deriving DecidableEq, Repr

/-- A DataFrame is modelled as its ordered association list of columns
(column name, cells top to bottom). -/
abbrev DataFrame := List (String × List PyVal)

/-- Column read `df[name]`; a missing column is modelled as the empty
column (no claim reads a missing column). -/
def dfGetCol (df : DataFrame) (name : String) : List PyVal :=
  match df.find? (fun p => p.1 = name) with
  | some p => p.2
  | none => []

/-- Column membership test, `name in df.columns`. -/
def dfHasCol (df : DataFrame) (name : String) : Bool :=
  df.any (fun p => p.1 = name)

/-- Column assignment `df[name] = col`: pandas updates the column in place
when it exists and appends a new column at the end otherwise. -/
def dfSetCol (df : DataFrame) (name : String) (col : List PyVal) : DataFrame :=
  if dfHasCol df name then
    df.map (fun p => if p.1 = name then (name, col) else p)
  else
    df ++ [(name, col)]

/-- Left-pad a digit string with zeros to length `k` (fractional part of a
fixed-point float format). -/
def padZeros (s : String) (k : Nat) : String :=
  if s.length < k then String.mk (List.replicate (k - s.length) '0') ++ s else s

/-- Round a rational to the nearest integer, ties to even, as Python float
formatting does. -/
def roundHalfEven (q : ℚ) : Int :=
  let f : Int := Int.floor q
  let r : ℚ := q - (f : ℚ)
  if r < 1/2 then f
  else if 1/2 < r then f + 1
  else if f % 2 = 0 then f else f + 1

/-- Fixed-point decimal formatting with `k` digits, the model of the
Python f-string conversions `:.2f` and `:.1f`. -/
def formatFixed (q : ℚ) (k : Nat) : String :=
  let scaled : Int := roundHalfEven (q * ((10 : ℚ) ^ k))
  let sign : String := if scaled < 0 then "-" else ""
  let n : Nat := scaled.natAbs
  let ip : Nat := n / 10 ^ k
  let fp : Nat := n % 10 ^ k
  if k = 0 then sign ++ toString ip
  else sign ++ toString ip ++ "." ++ padZeros (toString fp) k

/-- Mean of a pandas numeric series, `series.mean()` (line 242 / 254 of
incident_analysis.py); on the empty series pandas yields NaN, which never
reaches a comparison because the `iloc` lookup on line 243 / 255 raises
first — callers guard with `getLast?`/`head?`. -/
def seriesMean (vs : List ℚ) : ℚ :=
  vs.sum / (vs.length : ℚ)

/-- Trend selection of lines 243 and 255:
`'augmentation' if series.iloc[-1] > series.iloc[0] else 'diminution'`. -/
def indexTrend (lastV firstV : ℚ) : String :=
  if lastV > firstV then "augmentation" else "diminution"

/-- Vegetation-health qualitative bucket, lines 246-251 of
incident_analysis.py (the `if avg_ndvi > 0.5 / elif avg_ndvi > 0.3 / else`
chain). -/
def vegBucketText (avg : ℚ) : String :=
  if avg > 1/2 then "généralement bonne.\n"
  else if avg > 3/10 then "modérée.\n"
  else "potentiellement faible ou une zone avec peu de végétation.\n"

/-- Water-presence qualitative bucket, lines 258-261 of
incident_analysis.py (`if avg_ndwi > 0` / `else`). -/
def waterBucketText (avg : ℚ) : String :=
  if avg > 0 then "la présence significative d\x27eau dans la zone.\n"
  else "une zone relativement sèche ou avec peu d\x27eau de surface.\n"

/-- The fixed code-to-name dictionary `land_cover_types` of
analyze_land_cover (lines 134-139), with `dict.get(key, default)` access
modelled by `Option`. -/
def land_cover_types (k : Int) : Option String :=
  if k = 10 then some "Couverture arborée"
  else if k = 20 then some "Arbustes"
  else if k = 30 then some "Prairies"
  else if k = 40 then some "Terres cultivées"
  else if k = 50 then some "Zones bâties"
  else if k = 60 then some "Végétation clairsemée/nue"
  else if k = 70 then some "Neige/Glace"
  else if k = 80 then some "Plans d\x27eau permanents"
  else if k = 90 then some "Zones humides herbacées"
  else if k = 95 then some "Mangroves"
  else if k = 100 then some "Mousses/Lichens"
  else none

/-- Single insertion into a Python dict modelled as an ordered association
list: an existing key keeps its position and gets the new value, a new key
is appended. -/
def dictInsert (d : List (String × Nat)) (k : String) (v : Nat) :
    List (String × Nat) :=
  if d.any (fun p => p.1 = k) then
    d.map (fun p => if p.1 = k then (k, v) else p)
  else
    d ++ [(k, v)]

/-- Inverse table of `land_cover_types`, used only to reason about the
dictionary (each fixed class name decodes back to its unique code). -/
def lcCode (s : String) : Option Int :=
  if s = "Couverture arborée" then some 10
  else if s = "Arbustes" then some 20
  else if s = "Prairies" then some 30
  else if s = "Terres cultivées" then some 40
  else if s = "Zones bâties" then some 50
  else if s = "Végétation clairsemée/nue" then some 60
  else if s = "Neige/Glace" then some 70
  else if s = "Plans d\x27eau permanents" then some 80
  else if s = "Zones humides herbacées" then some 90
  else if s = "Mangroves" then some 95
  else if s = "Mousses/Lichens" then some 100
  else none

/-- Class name of one sampled entry,
`land_cover_types.get(int(k), 'Inconnu')` (line 141): the fixed name for
a known code, "Inconnu" for any other code. -/
def lcName (kv : Int × Nat) : String :=
  (land_cover_types kv.1).getD "Inconnu"

/-- Remapping step of analyze_land_cover, line 141:
`{land_cover_types.get(int(k), 'Inconnu'): v for k, v in sampled_data.items()}`.
The sampled histogram returned by the external raster service is the
input, as an ordered list of (class code, pixel count) pairs. -/
def analyze_land_cover (sampled_data : List (Int × Nat)) :
    List (String × Nat) :=
  sampled_data.foldl (fun d kv => dictInsert d (lcName kv) kv.2) []

/-- Dominant class selection of line 264,
`max(landcover_data, key=landcover_data.get)`: the first key of maximal
count in iteration order (`max` keeps the earlier element on ties and
raises on an empty dict, hence `Option`). -/
def dominantCover (lc : List (String × Nat)) : Option String :=
  match lc with
  | [] => none
  | p :: rest =>
      some ((rest.foldl (fun best q => if q.2 > best.2 then q else best) p).1)

/-- Deforestation-specific paragraph, lines 269-282 of
incident_analysis.py. -/
def deforestationSection (lc : List (String × Nat)) (total : Nat)
    (ndvi_trend : String) : String :=
  "\nEn ce qui concerne la déforestation, " ++
  (if lc.any (fun p => p.1 = "Couverture arborée") then
    let tree_cover_percent : ℚ :=
      (((lc.lookup "Couverture arborée").getD 0 : ℚ) / (total : ℚ)) * 100
    "la zone présente actuellement " ++ formatFixed tree_cover_percent 1 ++
    "% de couverture arborée. " ++
    (if ndvi_trend = "diminution" then
      "La tendance à la baisse du NDVI pourrait indiquer une perte récente de végétation, " ++
      "potentiellement liée à des activités de déforestation."
    else
      "Malgré la préoccupation de déforestation, le NDVI ne montre pas de tendance à la baisse, " ++
      "ce qui pourrait suggérer que la déforestation n\x27est pas active ou est compensée par la croissance ailleurs.")
  else
    "la zone ne semble pas avoir une couverture forestière significative actuellement. " ++
    "Cela pourrait indiquer une déforestation passée ou une zone naturellement non boisée.")

/-- Water-pollution-specific paragraph, lines 284-296 of
incident_analysis.py. -/
def waterPollutionSection (avg_ndwi : ℚ) (ndwi_trend : String) : String :=
  "\nConcernant la pollution de l\x27eau, " ++
  (if avg_ndwi > 0 then
    "la présence d\x27eau est confirmée par l\x27indice NDWI positif. " ++
    (if ndwi_trend = "diminution" then
      "La tendance à la baisse du NDWI pourrait indiquer une réduction des surfaces d\x27eau, " ++
      "potentiellement liée à la pollution ou à d\x27autres facteurs environnementaux."
    else
      "Le NDWI stable ou en augmentation suggère que la quantité d\x27eau de surface n\x27a pas diminué. " ++
      "Cependant, cela n\x27exclut pas la possibilité de pollution, qui nécessiterait des analyses in situ pour être confirmée.")
  else
    "l\x27indice NDWI faible suggère peu d\x27eau de surface dans la zone. " ++
    "La pollution de l\x27eau pourrait concerner des sources d\x27eau souterraines ou des cours d\x27eau temporaires non détectés par l\x27analyse satellite.")

/-- Incident-specific tail of the narrative (lines 268-298): a
Déforestation branch, a Pollution-de-l\x27eau branch, and nothing for any
other incident type. -/
def incidentSection (incident_type : String) (lc : List (String × Nat))
    (total : Nat) (avg_ndwi : ℚ) (ndvi_trend ndwi_trend : String) : String :=
  if incident_type = "Déforestation" then
    deforestationSection lc total ndvi_trend
  else if incident_type = "Pollution de l\x27eau" then
    waterPollutionSection avg_ndwi ndwi_trend
  else ""

/-- Narrative synthesizer generate_textual_analysis (lines 235-300).
Inputs are the NDVI value series, the NDWI value series (the `NDVI` /
`NDWI` DataFrame columns), the land-cover histogram in insertion order and
the incident type. `none` models an uncaught Python exception: the
`iloc[-1]` lookup on an empty series (IndexError, lines 243/255), `max` on
an empty dict (ValueError, line 264) and division by a zero total count
(ZeroDivisionError, line 266). -/
def generate_textual_analysis (ndvi ndwi : List ℚ)
    (landcover_data : List (String × Nat)) (incident_type : String) :
    Option String :=
  match ndvi.getLast?, ndvi.head? with
  | some ndviLast, some ndviFirst =>
    let avg_ndvi := seriesMean ndvi
    let ndvi_trend := indexTrend ndviLast ndviFirst
    match ndwi.getLast?, ndwi.head? with
    | some ndwiLast, some ndwiFirst =>
      let avg_ndwi := seriesMean ndwi
      let ndwi_trend := indexTrend ndwiLast ndwiFirst
      match dominantCover landcover_data with
      | some dominant_cover =>
        let total := (landcover_data.map Prod.snd).sum
        if total = 0 then none
        else
          let header :=
            "Analyse de l\x27incident de type \x27" ++ incident_type ++ "\x27:\n\n"
          let ndviSection :=
            "L\x27indice de végétation (NDVI) moyen est de " ++
            formatFixed avg_ndvi 2 ++ ", avec une tendance à la " ++
            ndvi_trend ++ " sur la période analysée. " ++
            "Cela indique une santé de la végétation " ++ vegBucketText avg_ndvi
          let ndwiSection :=
            "\nL\x27indice d\x27eau (NDWI) moyen est de " ++
            formatFixed avg_ndwi 2 ++ ", avec une tendance à la " ++
            ndwi_trend ++ ". " ++ "Cela suggère " ++ waterBucketText avg_ndwi
          let landSection :=
            "\nLa couverture terrestre dominante dans la zone est \x27" ++
            dominant_cover ++ "\x27, " ++ "représentant " ++
            formatFixed
              ((((landcover_data.lookup dominant_cover).getD 0 : ℚ) /
                (total : ℚ)) * 100) 1 ++
            "% de la surface analysée.\n"
          some (header ++ ndviSection ++ ndwiSection ++ landSection ++
            incidentSection incident_type landcover_data total avg_ndwi
              ndvi_trend ndwi_trend)
      | none => none
    | _, _ => none
  | _, _ => none

/-- A Sentinel-2 scene as seen by analyze_vegetation_and_water: the
acquisition date, the point samples of the three spectral bands used
(B3 green, B4 red, B8 near-infrared) and the scene's cloudy-pixel
percentage used by the `CLOUDY_PIXEL_PERCENTAGE <= 20` filter (line 83). -/
structure Scene where
  date : DateYMD
  b3 : ℚ
  b4 : ℚ
  b8 : ℚ
  cloudy_pixel_percentage : ℚ
deriving DecidableEq, Repr

/-- Earth Engine `image.normalizedDifference([a, b])` at the sampled
point: (a - b) / (a + b). -/
def normalizedDifference (a b : ℚ) : ℚ :=
  (a - b) / (a + b)

/-- NDVI of a scene, `normalizedDifference(['B8', 'B4'])` (line 87). -/
def get_ndvi (s : Scene) : ℚ :=
  normalizedDifference s.b8 s.b4

/-- NDWI of a scene, `normalizedDifference(['B3', 'B8'])` (line 90). -/
def get_ndwi (s : Scene) : ℚ :=
  normalizedDifference s.b3 s.b8

/-- Extractor analyze_vegetation_and_water (lines 75-120). The external
imagery catalog is modelled by its result: the list of scenes already
restricted to the buffered area and date range, in the acquisition order
the catalog returns (its `getRegion` rows); the code applies the
cloud filter and computes both index series from the one collection. The
two area means come from the external `reduceRegion` spatial reduction,
which point samples cannot determine, so they are carried through as
inputs. Returns (df_ndvi, df_ndwi, ndvi_mean, ndwi_mean) exactly as the
source's 4-tuple does. -/
def analyze_vegetation_and_water (collection : List Scene)
    (ndvi_mean ndwi_mean : ℚ) : DataFrame × DataFrame × ℚ × ℚ :=
  let s2_collection := collection.filter
    (fun s => s.cloudy_pixel_percentage ≤ 20)
  let dates := s2_collection.map (fun s => PyVal.date s.date)
  let ndvi_values := s2_collection.map (fun s => PyVal.rat (get_ndvi s))
  let ndwi_values := s2_collection.map (fun s => PyVal.rat (get_ndwi s))
  ([("Date", dates), ("NDVI", ndvi_values)],
   [("Date", dates), ("NDWI", ndwi_values)],
   ndvi_mean, ndwi_mean)

/-- A rendered chart: the matplotlib figure and its base64 PNG encoding
are an external, opaque serialization, so the artifact is modelled by the
data handed to the plotting calls (which the image is a function of). -/
structure ChartArtifact where
  plotted : List (String × List PyVal)
deriving DecidableEq, Repr

/-- Renderer generate_ndvi_ndwi_plot (lines 144-171): plots
ndvi_data['Date'] against ndvi_data['NDVI'] and ndwi_data['Date'] against
ndwi_data['NDWI']; it only reads its inputs. -/
def generate_ndvi_ndwi_plot (ndvi_data ndwi_data : DataFrame) :
    ChartArtifact :=
  { plotted := [("ndvi.Date", dfGetCol ndvi_data "Date"),
                ("ndvi.NDVI", dfGetCol ndvi_data "NDVI"),
                ("ndwi.Date", dfGetCol ndwi_data "Date"),
                ("ndwi.NDWI", dfGetCol ndwi_data "NDWI")] }

/-- French month abbreviations `mois_abbr_francais` (lines 178-181),
accessed through pandas `Series.map` (an absent key maps to NaN; months of
a valid date are 1-12 so every lookup succeeds). -/
def mois_abbr_francais (m : Nat) : Option String :=
  if m = 1 then some "Janv" else if m = 2 then some "Févr"
  else if m = 3 then some "Mars" else if m = 4 then some "Avril"
  else if m = 5 then some "Mai" else if m = 6 then some "Juin"
  else if m = 7 then some "Juil" else if m = 8 then some "Août"
  else if m = 9 then some "Sept" else if m = 10 then some "Oct"
  else if m = 11 then some "Nov" else if m = 12 then some "Déc"
  else none

/-- Cell transform for `ndvi_data['Date'].dt.month`. -/
def cellMonth (v : PyVal) : PyVal :=
  match v with
  | PyVal.date d => PyVal.int (d.month : Int)
  | _ => PyVal.int 0

/-- Cell transform for `ndvi_data['NumMois'].map(mois_abbr_francais)`. -/
def cellMois (v : PyVal) : PyVal :=
  match v with
  | PyVal.int n => PyVal.str ((mois_abbr_francais n.toNat).getD "NaN")
  | _ => PyVal.str "NaN"

/-- Cell transform for `ndvi_data['Date'].dt.day`. -/
def cellDay (v : PyVal) : PyVal :=
  match v with
  | PyVal.date d => PyVal.int (d.day : Int)
  | _ => PyVal.int 0

/-- Renderer generate_ndvi_heatmap (lines 173-200). The Python function
assigns three new columns to the DataFrame it was passed —
`ndvi_data['NumMois']`, `ndvi_data['Mois']`, `ndvi_data['Jour']` (lines
177, 182, 183) — mutating the caller's object in place; the explicit
state passing returns the mutated DataFrame alongside the artifact. The
pivot table feeds only the external seaborn rendering. -/
def generate_ndvi_heatmap (ndvi_data : DataFrame) :
    ChartArtifact × DataFrame :=
  let df1 := dfSetCol ndvi_data "NumMois"
    ((dfGetCol ndvi_data "Date").map cellMonth)
  let df2 := dfSetCol df1 "Mois" ((dfGetCol df1 "NumMois").map cellMois)
  let df3 := dfSetCol df2 "Jour" ((dfGetCol df2 "Date").map cellDay)
  ({ plotted := [("Jour", dfGetCol df3 "Jour"),
                 ("Mois", dfGetCol df3 "Mois"),
                 ("NDVI", dfGetCol df3 "NDVI")] }, df3)

/-- Renderer generate_landcover_plot (lines 202-233): a pie of the
histogram's values with the keys as legend entries; it only reads its
input. -/
def generate_landcover_plot (landcover_data : List (String × Nat)) :
    ChartArtifact :=
  { plotted := [("values", landcover_data.map (fun p => PyVal.int (p.2 : Int))),
                ("keys", landcover_data.map (fun p => PyVal.str p.1))] }

/-- Helper to read the rational cells of a numeric DataFrame column (the
NDVI / NDWI columns hold only floats). -/
def colRats (col : List PyVal) : List ℚ :=
  col.filterMap (fun v =>
    match v with
    | PyVal.rat q => some q
    | _ => none)

/-- The result dictionary assembled by analyze_incident_zone
(lines 60-70). -/
structure AnalysisResult where
  textual_analysis : String
  ndvi_ndwi_plot : ChartArtifact
  ndvi_heatmap : ChartArtifact
  landcover_plot : ChartArtifact
  raw_ndvi : DataFrame
  raw_ndwi : DataFrame
  raw_landcover : List (String × Nat)
deriving DecidableEq, Repr

/-- Orchestrator analyze_incident_zone, lines 51-70: the stage after the
two external fetches have produced `ndvi_data`, `ndwi_data` (DataFrames)
and `landcover_data` (histogram). It renders the three charts, then the
narrative, then packs `raw_data` from the DataFrame objects as they stand
at line 66 — after generate_ndvi_heatmap has run on `ndvi_data`. `none`
models an exception escaping the pipeline (e.g. from
generate_textual_analysis on empty series). -/
def analyze_incident_zone (ndvi_data ndwi_data : DataFrame)
    (landcover_data : List (String × Nat)) (incident_type : String) :
    Option AnalysisResult :=
  let ndvi_ndwi_plot := generate_ndvi_ndwi_plot ndvi_data ndwi_data
  let hm := generate_ndvi_heatmap ndvi_data
  let ndvi_heatmap := hm.1
  let ndvi_data1 := hm.2
  let landcover_plot := generate_landcover_plot landcover_data
  match generate_textual_analysis (colRats (dfGetCol ndvi_data1 "NDVI"))
      (colRats (dfGetCol ndwi_data "NDWI")) landcover_data incident_type with
  | none => none
  | some ta =>
      some { textual_analysis := ta
             ndvi_ndwi_plot := ndvi_ndwi_plot
             ndvi_heatmap := ndvi_heatmap
             landcover_plot := landcover_plot
             raw_ndvi := ndvi_data1
             raw_ndwi := ndwi_data
             raw_landcover := landcover_data }

/-- A geocoding candidate of the Nominatim response, its `lat` / `lon`
fields already parsed (the spec's interface guarantees parseable numeric
strings). -/
structure GeoCandidate where
  lat : ℚ
  lon : ℚ
deriving DecidableEq, Repr

/-- Coordinate-resolution portion of create_geojson_from_location (lines
306-320): given the geocoding response's status code and candidate list,
produce the point used for the GeoJSON, as (lon, lat) exactly as
`Point(lon, lat)` is built; any non-200 status or empty candidate list
logs a warning and falls back to `Point(0, 0)`. The file write and
GeoJSON re-validation that follow are I/O outside the lookup outcome. -/
def create_geojson_from_location_point (status_code : Nat)
    (data : List GeoCandidate) : ℚ × ℚ :=
  if status_code = 200 then
    match data with
    | c :: _ => (c.lon, c.lat)
    | [] => (0, 0)
  else (0, 0)

/-- A chat message, `{"role": ..., "content": ...}`. -/
structure Msg where
  role : String
  content : String
deriving DecidableEq, Repr

/-- Outcome of one OpenAI `chat.completions.create` call: `.ok` carries
`choices[0].message.content`, `.error` carries the exception text. The
external client is modelled as a function from the sent message list to
this outcome. -/
abbrev ChatApi := List Msg → Except String String

/-- Fallback text returned by get_assistant_response when the API call
raises (line 51 of gpt_3_5_turbo.py). -/
def fallbackMessageEn : String :=
  "Sorry, I can\x27t process your request right now."

/-- Fallback text returned by chat_response when the API call raises
(line 197 of gpt_3_5_turbo.py). -/
def fallbackMessageFr : String :=
  "Désolé, je ne peux pas traiter votre demande pour le moment."

/-- get_assistant_response (lines 24-51): sends the chat history to the
model and returns its reply; any exception from the call is caught,
printed and replaced by the fixed English fallback message. -/
def get_assistant_response (api : ChatApi) (messages : List Msg) : String :=
  match api (messages.map (fun m => { role := m.role, content := m.content })) with
  | Except.ok response => response
  | Except.error _ => fallbackMessageEn

/-- get_response (lines 53-73): appends the user's turn to the chat
history, obtains the assistant's reply (or the fallback) and appends it
too; the module-level mutable `messages` list is the explicit state.
Returns (updated history, reply). -/
def get_response (messages : List Msg) (prompt : String) (api : ChatApi) :
    List Msg × String :=
  let messages1 := messages ++ [{ role := "user", content := prompt }]
  let response := get_assistant_response api messages1
  let messages2 := messages1 ++ [{ role := "assistant", content := response }]
  (messages2, response)

/-- Outcome of `json.loads(context)` (line 104 of gpt_3_5_turbo.py),
modelled abstractly: a JSON object is the list of its string fields, and
`.error` is a raised JSONDecodeError (which `json.loads` produces on any
string that is not valid JSON, in particular on the default `""`). -/
abbrev JsonLoads := String → Except String (List (String × String))

/-- System-message template of chat_response (lines 110-173): the static
French instruction/example text with the three incident fields
interpolated. The triple-quoted literal's surrounding indentation is
immaterial to every claim and is transcribed flat. -/
def build_system_message (incident_type analysis piste_solution : String) :
    String :=
  "\n<system>\n<role>assistant AI</role>\n" ++
  "<task>analyse des incidents environnementaux</task>\n" ++
  "<location>Mali</location>\n<incident>\n<type>" ++ incident_type ++
  "</type>\n<analysis>" ++ analysis ++ "</analysis>\n<solution_tracks>" ++
  piste_solution ++ "</solution_tracks>\n</incident>\n<instructions>\n" ++
  "<instruction>Adaptez vos réponses au contexte spécifique de l\x27incident.</instruction>\n" ++
  "<instruction>Utilisez les informations de contexte pour enrichir vos explications.</instruction>\n" ++
  "<instruction>Si la question dépasse le contexte fourni, mentionnez clairement que vous répondez de manière générale.</instruction>\n" ++
  "<instruction>Priorisez les réponses concises et orientées sur la résolution du problème.</instruction>\n" ++
  "<instruction>Ne déviez pas de la tâche principale et évitez les réponses non pertinentes.</instruction>\n" ++
  "<response_formatting>...</response_formatting>\n</instructions>\n" ++
  "<examples>...</examples>\n</system>\n"

/-- chat_response (lines 78-197). The context JSON string is parsed on
line 104, before the `try` block: a parse failure propagates to the
caller as `.error`. Only the model call itself (lines 180-190) is guarded
by `try/except`; its failure is caught and replaced by the fixed French
fallback, returned as a normal (`.ok`) reply. -/
def chat_response (json_loads : JsonLoads) (api : ChatApi)
    (prompt : String) (context : String) (chat_history : List Msg) :
    Except String String :=
  match json_loads context with
  | Except.error e => Except.error e
  | Except.ok context_obj =>
    let incident_type := (context_obj.lookup "type_incident").getD "Inconnu"
    let analysis := (context_obj.lookup "analysis").getD "Non spécifié"
    let piste_solution :=
      (context_obj.lookup "piste_solution").getD "Non spécifié"
    let system_message :=
      build_system_message incident_type analysis piste_solution
    let messages := [{ role := "system", content := system_message }] ++
      chat_history ++ [{ role := "user", content := prompt }]
    match api messages with
    | Except.ok assistant_response => Except.ok assistant_response
    | Except.error _ => Except.ok fallbackMessageFr

/-- Chronological key of a date, for stating date ordering. -/
def dateKey (d : DateYMD) : Nat :=
  d.year * 10000 + d.month * 100 + d.day

/-- Chronological key of a DataFrame date cell. -/
def pvDateKey (v : PyVal) : Nat :=
  match v with
  | PyVal.date d => dateKey d
  | _ => 0

/-- C1 counterexample: at the concrete input with an empty NDVI series,
generate_textual_analysis evaluates to `none` — the `iloc[-1]` lookup of
line 243 raises IndexError — refuting the claim that it does not raise
and substitutes an "insufficient data" clause (no such clause exists in
the function). -/
theorem generate_textual_analysis_empty_raises_cex :
    generate_textual_analysis [] [(1 : ℚ)] [("Prairies", 5)] "Déforestation" =
      none := by
  rfl

/-- C1 (amended): for every input in which the NDVI series or the NDWI
series is empty, generate_textual_analysis raises (the `iloc` lookup
fails, modelled by `none`); it produces no narrative and no "insufficient
data" clause. -/
theorem generate_textual_analysis_empty_raises (ndvi ndwi : List ℚ)
    (landcover_data : List (String × Nat)) (incident_type : String)
    (h : ndvi = [] ∨ ndwi = []) :
    generate_textual_analysis ndvi ndwi landcover_data incident_type =
      none := by
  rcases h with h | h
  · subst h; rfl
  · subst h
    unfold generate_textual_analysis
    cases ndvi.getLast? <;> cases ndvi.head? <;> rfl

/-- C1 witness: the amended theorem applied at a concrete input with an
empty NDWI series. -/
theorem generate_textual_analysis_empty_raises_witness :
    generate_textual_analysis [(2 : ℚ)] [] [("Arbustes", 3)] "Inondation" =
      none :=
  generate_textual_analysis_empty_raises [(2 : ℚ)] [] [("Arbustes", 3)]
    "Inondation" (Or.inr rfl)

/-- C2: for every non-empty series, the trend string computed by the
synthesizer (lines 243 and 255, shared by NDVI and NDWI) is
"augmentation" exactly when the last value strictly exceeds the first,
and a series with equal first and last values yields "diminution". -/
theorem indexTrend_augmentation_iff (vs : List ℚ) (h : vs ≠ []) :
    (indexTrend (vs.getLast h) (vs.head h) = "augmentation" ↔
      vs.head h < vs.getLast h) ∧
    (vs.getLast h = vs.head h →
      indexTrend (vs.getLast h) (vs.head h) = "diminution") := by
  unfold indexTrend
  constructor
  · constructor
    · intro he
      by_contra hlt
      rw [if_neg (by simpa using hlt)] at he
      exact absurd he (by decide)
    · intro hlt
      rw [if_pos (by simpa using hlt)]
  · intro heq
    rw [if_neg (by rw [heq]; exact lt_irrefl _)]

/-- C2 witness: the theorem applied to the concrete two-element series
[1, 1] (equal endpoints, trend "diminution"). -/
theorem indexTrend_augmentation_iff_witness :
    (indexTrend ([(1 : ℚ), 1].getLast (by decide))
        ([(1 : ℚ), 1].head (by decide)) = "augmentation" ↔
      [(1 : ℚ), 1].head (by decide) < [(1 : ℚ), 1].getLast (by decide)) ∧
    ([(1 : ℚ), 1].getLast (by decide) = [(1 : ℚ), 1].head (by decide) →
      indexTrend ([(1 : ℚ), 1].getLast (by decide))
        ([(1 : ℚ), 1].head (by decide)) = "diminution") :=
  indexTrend_augmentation_iff [(1 : ℚ), 1] (by decide)

/-- C3: the qualitative buckets chosen by generate_textual_analysis obey
the strict boundaries of lines 246-251 and 258-261: NDVI mean > 0.5 gives
"généralement bonne", > 0.3 and ≤ 0.5 gives "modérée" (so exactly 0.5 is
"modérée"), ≤ 0.3 gives the low-vegetation text; NDWI mean > 0 gives the
significant-water text and ≤ 0 (including 0) the relatively-dry text; and
on any non-degenerate input the narrative produced is built around
exactly those two bucket texts applied to the series means. -/
theorem generate_textual_analysis_buckets (ndvi ndwi : List ℚ)
    (landcover_data : List (String × Nat)) (incident_type : String)
    (h1 : ndvi ≠ []) (h2 : ndwi ≠ []) (h3 : landcover_data ≠ [])
    (h4 : (landcover_data.map Prod.snd).sum ≠ 0) :
    ((seriesMean ndvi > 1/2 →
        vegBucketText (seriesMean ndvi) = "généralement bonne.\n") ∧
     (seriesMean ndvi > 3/10 ∧ seriesMean ndvi ≤ 1/2 →
        vegBucketText (seriesMean ndvi) = "modérée.\n") ∧
     (seriesMean ndvi ≤ 3/10 →
        vegBucketText (seriesMean ndvi) =
          "potentiellement faible ou une zone avec peu de végétation.\n")) ∧
    ((seriesMean ndwi > 0 →
        waterBucketText (seriesMean ndwi) =
          "la présence significative d\x27eau dans la zone.\n") ∧
     (seriesMean ndwi ≤ 0 →
        waterBucketText (seriesMean ndwi) =
          "une zone relativement sèche ou avec peu d\x27eau de surface.\n")) ∧
    (∃ p q r s t,
      generate_textual_analysis ndvi ndwi landcover_data incident_type =
        some (p ++ (q ++ vegBucketText (seriesMean ndvi)) ++
          (r ++ waterBucketText (seriesMean ndwi)) ++ s ++ t)) := by
  refine ⟨⟨?_, ?_, ?_⟩, ⟨?_, ?_⟩, ?_⟩
  · intro hg
    simp only [vegBucketText, if_pos hg]
  · rintro ⟨hgt, hle⟩
    simp only [vegBucketText, if_neg (not_lt.mpr hle), if_pos hgt]
  · intro hle
    have hn1 : ¬ (seriesMean ndvi > 1/2) := not_lt.mpr (by linarith)
    have hn2 : ¬ (seriesMean ndvi > 3/10) := not_lt.mpr hle
    simp only [vegBucketText, if_neg hn1, if_neg hn2]
  · intro hg
    simp only [waterBucketText, if_pos hg]
  · intro hle
    simp only [waterBucketText, if_neg (not_lt.mpr hle)]
  · cases landcover_data with
    | nil => exact absurd rfl h3
    | cons hd tl =>
      simp only [generate_textual_analysis,
        List.getLast?_eq_getLast ndvi h1, List.head?_eq_head h1,
        List.getLast?_eq_getLast ndwi h2, List.head?_eq_head h2,
        dominantCover]
      rw [if_neg h4]
      exact ⟨_, _, _, _, _, rfl⟩

/-- C3 witness: the theorem applied at the boundary input — NDVI series
[1/2] (mean exactly 0.5, bucket "modérée") and NDWI series [0] (mean
exactly 0, bucket relatively dry). -/
theorem generate_textual_analysis_buckets_witness :
    ((seriesMean [(1 : ℚ)/2] > 1/2 →
        vegBucketText (seriesMean [(1 : ℚ)/2]) = "généralement bonne.\n") ∧
     (seriesMean [(1 : ℚ)/2] > 3/10 ∧ seriesMean [(1 : ℚ)/2] ≤ 1/2 →
        vegBucketText (seriesMean [(1 : ℚ)/2]) = "modérée.\n") ∧
     (seriesMean [(1 : ℚ)/2] ≤ 3/10 →
        vegBucketText (seriesMean [(1 : ℚ)/2]) =
          "potentiellement faible ou une zone avec peu de végétation.\n")) ∧
    ((seriesMean [(0 : ℚ)] > 0 →
        waterBucketText (seriesMean [(0 : ℚ)]) =
          "la présence significative d\x27eau dans la zone.\n") ∧
     (seriesMean [(0 : ℚ)] ≤ 0 →
        waterBucketText (seriesMean [(0 : ℚ)]) =
          "une zone relativement sèche ou avec peu d\x27eau de surface.\n")) ∧
    (∃ p q r s t,
      generate_textual_analysis [(1 : ℚ)/2] [(0 : ℚ)] [("Prairies", 5)]
          "Inondation" =
        some (p ++ (q ++ vegBucketText (seriesMean [(1 : ℚ)/2])) ++
          (r ++ waterBucketText (seriesMean [(0 : ℚ)])) ++ s ++ t)) :=
  generate_textual_analysis_buckets [(1 : ℚ)/2] [(0 : ℚ)] [("Prairies", 5)]
    "Inondation" (by decide) (by decide) (by decide) (by decide)

/-- C4 counterexample: at a concrete one-row NDVI frame, rendering the
heatmap does not leave its input unchanged — generate_ndvi_heatmap hands
back a frame with three added columns — and the raw NDVI data in the
assembled result bundle is not the extracted (Date, NDVI) pair of columns
alone. -/
theorem generate_ndvi_heatmap_mutates_cex :
    (generate_ndvi_heatmap
        [("Date", [PyVal.date ⟨2023, 1, 5⟩]),
         ("NDVI", [PyVal.rat (2/5)])]).2 ≠
      [("Date", [PyVal.date ⟨2023, 1, 5⟩]), ("NDVI", [PyVal.rat (2/5)])] ∧
    (analyze_incident_zone
        [("Date", [PyVal.date ⟨2023, 1, 5⟩]), ("NDVI", [PyVal.rat (2/5)])]
        [("Date", [PyVal.date ⟨2023, 1, 5⟩]), ("NDWI", [PyVal.rat (1/10)])]
        [("Prairies", 5)] "Feu").map
        (fun r => r.raw_ndvi.map Prod.fst) ≠
      some ["Date", "NDVI"] := by
  constructor
  · intro h
    have h2 := congrArg (fun df : DataFrame => df.map Prod.fst) h
    simp [generate_ndvi_heatmap, dfSetCol, dfHasCol, dfGetCol,
      List.find?] at h2
  · cases hgta : generate_textual_analysis
        (colRats (dfGetCol
          (generate_ndvi_heatmap
            [("Date", [PyVal.date ⟨2023, 1, 5⟩]),
             ("NDVI", [PyVal.rat (2/5)])]).2 "NDVI"))
        (colRats (dfGetCol
          [("Date", [PyVal.date ⟨2023, 1, 5⟩]),
           ("NDWI", [PyVal.rat (1/10)])] "NDWI"))
        [("Prairies", 5)] "Feu" with
    | none =>
        simp only [analyze_incident_zone]
        rw [hgta]
        simp
    | some ta =>
        simp only [analyze_incident_zone]
        rw [hgta]
        simp [generate_ndvi_heatmap, dfSetCol, dfHasCol, dfGetCol,
          List.find?]

/-- C4 (amended): generate_ndvi_heatmap mutates the NDVI frame it is
passed, appending exactly the three derived columns NumMois, Mois and
Jour (computed from the Date column; Date and NDVI themselves are
unchanged), and since analyze_incident_zone packs `raw_data` after that
render, the bundle's raw NDVI data is the extracted frame extended with
those three columns, while the NDWI frame and the land-cover histogram
pass through unchanged. -/
theorem generate_ndvi_heatmap_mutation (dates ndvis : List PyVal)
    (ndwi_data : DataFrame) (landcover_data : List (String × Nat))
    (incident_type : String) :
    (generate_ndvi_heatmap [("Date", dates), ("NDVI", ndvis)]).2 =
      [("Date", dates), ("NDVI", ndvis),
       ("NumMois", dates.map cellMonth),
       ("Mois", (dates.map cellMonth).map cellMois),
       ("Jour", dates.map cellDay)] ∧
    ((analyze_incident_zone [("Date", dates), ("NDVI", ndvis)] ndwi_data
        landcover_data incident_type).map AnalysisResult.raw_ndvi =
      (analyze_incident_zone [("Date", dates), ("NDVI", ndvis)] ndwi_data
        landcover_data incident_type).map
        (fun _ =>
          (generate_ndvi_heatmap [("Date", dates), ("NDVI", ndvis)]).2) ∧
    (analyze_incident_zone [("Date", dates), ("NDVI", ndvis)] ndwi_data
        landcover_data incident_type).map AnalysisResult.raw_ndwi =
      (analyze_incident_zone [("Date", dates), ("NDVI", ndvis)] ndwi_data
        landcover_data incident_type).map (fun _ => ndwi_data) ∧
    (analyze_incident_zone [("Date", dates), ("NDVI", ndvis)] ndwi_data
        landcover_data incident_type).map AnalysisResult.raw_landcover =
      (analyze_incident_zone [("Date", dates), ("NDVI", ndvis)] ndwi_data
        landcover_data incident_type).map (fun _ => landcover_data)) := by
  refine ⟨?_, ?_⟩
  · simp [generate_ndvi_heatmap, dfSetCol, dfHasCol, dfGetCol, List.find?]
  · cases hgta : generate_textual_analysis
        (colRats (dfGetCol
          (generate_ndvi_heatmap [("Date", dates), ("NDVI", ndvis)]).2
          "NDVI"))
        (colRats (dfGetCol ndwi_data "NDWI")) landcover_data
        incident_type with
    | none => refine ⟨?_, ?_, ?_⟩ <;> simp [analyze_incident_zone, hgta]
    | some ta => refine ⟨?_, ?_, ?_⟩ <;> simp [analyze_incident_zone, hgta]

/-- Inserting a fresh key appends it. -/
lemma dictInsert_not_mem (d : List (String × Nat)) (k : String) (v : Nat)
    (h : k ∉ d.map Prod.fst) : dictInsert d k v = d ++ [(k, v)] := by
  have hany : d.any (fun p => p.1 = k) = false := by
    rw [List.any_eq_false]
    intro p hp
    simp only [decide_eq_true_eq]
    intro hk
    exact h (hk ▸ List.mem_map_of_mem Prod.fst hp)
  simp [dictInsert, hany]

/-- Running the histogram fold from any accumulator whose keys avoid the
pairwise-distinct incoming names appends one entry per sampled pair:
value sums add up and the final key list is the accumulator's keys
followed by the remapped names. -/
lemma analyze_land_cover_fold (l : List (Int × Nat)) :
    ∀ acc : List (String × Nat),
      (l.map lcName).Nodup →
      (∀ k ∈ l.map lcName, k ∉ acc.map Prod.fst) →
      ((l.foldl (fun d kv => dictInsert d (lcName kv) kv.2) acc).map
          Prod.snd).sum =
        (acc.map Prod.snd).sum + (l.map Prod.snd).sum ∧
      (l.foldl (fun d kv => dictInsert d (lcName kv) kv.2) acc).map
          Prod.fst =
        acc.map Prod.fst ++ l.map lcName := by
  induction l with
  | nil =>
    intro acc _ _
    simp
  | cons kv t ih =>
    intro acc hnd hdisj
    simp only [List.map_cons, List.nodup_cons] at hnd
    have hknotin : lcName kv ∉ acc.map Prod.fst :=
      hdisj (lcName kv) (by simp)
    have hins : dictInsert acc (lcName kv) kv.2 =
        acc ++ [(lcName kv, kv.2)] := dictInsert_not_mem acc _ kv.2 hknotin
    have hdisj2 : ∀ k ∈ t.map lcName,
        k ∉ (acc ++ [(lcName kv, kv.2)]).map Prod.fst := by
      intro k hk
      simp only [List.map_append, List.mem_append]
      rintro (hk1 | hk2)
      · exact hdisj k (by simp [hk]) hk1
      · simp only [List.map_cons, List.map_nil, List.mem_singleton] at hk2
        exact hnd.1 (hk2 ▸ hk)
    have ihres := ih (acc ++ [(lcName kv, kv.2)]) hnd.2 hdisj2
    simp only [List.foldl_cons, hins]
    constructor
    · rw [ihres.1]
      simp only [List.map_append, List.sum_append, List.map_cons,
        List.sum_cons]
      simp
      omega
    · rw [ihres.2]
      simp

set_option maxHeartbeats 1600000 in
/-- Every assigned class name decodes back to its code. -/
lemma land_cover_types_code (a : Int) (s : String)
    (ha : land_cover_types a = some s) : lcCode s = some a := by
  unfold land_cover_types at ha
  split_ifs at ha <;> injection ha with h2 <;> subst h2 <;> subst_vars <;>
    simp [lcCode]

/-- The known-code dictionary assigns distinct names to distinct
codes. -/
lemma land_cover_types_injective (a b : Int) (s : String)
    (ha : land_cover_types a = some s)
    (hb : land_cover_types b = some s) : a = b := by
  have h1 := land_cover_types_code a s ha
  have h2 := land_cover_types_code b s hb
  rw [h1] at h2
  exact Option.some.inj h2

/-- No known code is named "Inconnu". -/
lemma land_cover_types_ne_inconnu (a : Int) (s : String)
    (ha : land_cover_types a = some s) : s ≠ "Inconnu" := by
  intro hs
  have h1 := land_cover_types_code a s ha
  have h0 : lcCode "Inconnu" = none := by simp [lcCode]
  rw [hs, h0] at h1
  cases h1

/-- Two members of a list with pairwise-distinct first components that
agree on the first component are the same member. -/
lemma eq_of_fst_nodup {l : List (Int × Nat)}
    (h : (l.map Prod.fst).Nodup) {x y : Int × Nat}
    (hx : x ∈ l) (hy : y ∈ l) (hfst : x.1 = y.1) : x = y := by
  induction l with
  | nil => cases hx
  | cons a t ih =>
    simp only [List.map_cons, List.nodup_cons] at h
    rcases List.mem_cons.mp hx with rfl | hx2
    · rcases List.mem_cons.mp hy with rfl | hy2
      · rfl
      · exact absurd (hfst ▸ List.mem_map_of_mem Prod.fst hy2) h.1
    · rcases List.mem_cons.mp hy with rfl | hy2
      · exact absurd (hfst ▸ List.mem_map_of_mem Prod.fst hx2) h.1
      · exact ih h.2 hx2 hy2

/-- A list containing two distinct members has length at least two. -/
lemma two_mem_le_length {α : Type} {x y : α} {l : List α}
    (hx : x ∈ l) (hy : y ∈ l) (hne : x ≠ y) : 2 ≤ l.length := by
  induction l with
  | nil => cases hx
  | cons a t ih =>
    rcases List.mem_cons.mp hx with rfl | hx2
    · rcases List.mem_cons.mp hy with rfl | hy2
      · exact absurd rfl hne
      · have h1 : 0 < t.length := List.length_pos_of_mem hy2
        simp only [List.length_cons]
        omega
    · have h1 : 0 < t.length := List.length_pos_of_mem hx2
      simp only [List.length_cons]
      omega

/-- With pairwise-distinct codes of which at most one is unknown, the
remapped names are pairwise distinct. -/
lemma lcName_nodup (sampled_data : List (Int × Nat))
    (hcodes : (sampled_data.map Prod.fst).Nodup)
    (hunk : (sampled_data.filter
        (fun kv => (land_cover_types kv.1).isNone)).length ≤ 1) :
    (sampled_data.map lcName).Nodup := by
  have hsn : sampled_data.Nodup := List.Nodup.of_map _ hcodes
  refine List.Nodup.map_on ?_ hsn
  intro x hx y hy hxy
  cases hlx : land_cover_types x.1 with
  | some sx =>
    cases hly : land_cover_types y.1 with
    | some sy =>
      have hex : lcName x = sx := by simp [lcName, hlx]
      have hey : lcName y = sy := by simp [lcName, hly]
      have hss : sx = sy := by rw [← hex, ← hey, hxy]
      exact eq_of_fst_nodup hcodes hx hy
        (land_cover_types_injective x.1 y.1 sx hlx (hss ▸ hly))
    | none =>
      have hex : lcName x = sx := by simp [lcName, hlx]
      have hey : lcName y = "Inconnu" := by simp [lcName, hly]
      have hsx : sx = "Inconnu" := by rw [← hex, hxy, hey]
      exact absurd hsx (land_cover_types_ne_inconnu x.1 sx hlx)
  | none =>
    cases hly : land_cover_types y.1 with
    | some sy =>
      have hex : lcName x = "Inconnu" := by simp [lcName, hlx]
      have hey : lcName y = sy := by simp [lcName, hly]
      have hsy : sy = "Inconnu" := by rw [← hey, ← hxy, hex]
      exact absurd hsy (land_cover_types_ne_inconnu y.1 sy hly)
    | none =>
      by_contra hne
      have hxf : x ∈ sampled_data.filter
          (fun kv => (land_cover_types kv.1).isNone) :=
        List.mem_filter.mpr ⟨hx, by simp [hlx]⟩
      have hyf : y ∈ sampled_data.filter
          (fun kv => (land_cover_types kv.1).isNone) :=
        List.mem_filter.mpr ⟨hy, by simp [hly]⟩
      have := two_mem_le_length hxf hyf hne
      omega

/-- C5 counterexample: with the two unknown codes 7 and 8 sampled, both
remap to "Inconnu" and the dict comprehension keeps only the later count,
so the returned histogram sums to 200 while 300 pixels were sampled —
refuting the claimed sum invariant. -/
theorem analyze_land_cover_sum_cex :
    analyze_land_cover [((7 : Int), 100), (8, 200)] = [("Inconnu", 200)] ∧
    ((analyze_land_cover [((7 : Int), 100), (8, 200)]).map Prod.snd).sum ≠
      (([((7 : Int), 100), (8, 200)] : List (Int × Nat)).map
        Prod.snd).sum := by
  decide

/-- C5 (amended): the histogram's values are non-negative integers and
every sampled code outside the fixed enumeration appears as the "Inconnu"
bucket; the values sum to the total sampled pixel count provided the
sampled codes are distinct and at most one of them is unknown — with two
or more unknown codes the later "Inconnu" count overwrites the earlier
ones and the sum falls short of the total. -/
theorem analyze_land_cover_props (sampled_data : List (Int × Nat))
    (hcodes : (sampled_data.map Prod.fst).Nodup)
    (hunk : (sampled_data.filter
        (fun kv => (land_cover_types kv.1).isNone)).length ≤ 1) :
    (∀ v ∈ (analyze_land_cover sampled_data).map Prod.snd, 0 ≤ v) ∧
    ((analyze_land_cover sampled_data).map Prod.snd).sum =
      (sampled_data.map Prod.snd).sum ∧
    (analyze_land_cover sampled_data).map Prod.fst =
      sampled_data.map lcName ∧
    (∀ kv ∈ sampled_data, land_cover_types kv.1 = none →
      "Inconnu" ∈ (analyze_land_cover sampled_data).map Prod.fst) := by
  have hnd := lcName_nodup sampled_data hcodes hunk
  have hfold := analyze_land_cover_fold sampled_data [] hnd (by simp)
  refine ⟨?_, ?_, ?_, ?_⟩
  · intro v _
    exact Nat.zero_le v
  · have := hfold.1
    simpa [analyze_land_cover] using this
  · have := hfold.2
    simpa [analyze_land_cover] using this
  · intro kv hkv hnone
    have hkeys : (analyze_land_cover sampled_data).map Prod.fst =
        sampled_data.map lcName := by
      have := hfold.2
      simpa [analyze_land_cover] using this
    rw [hkeys]
    have hname : lcName kv = "Inconnu" := by simp [lcName, hnone]
    exact hname ▸ List.mem_map_of_mem lcName hkv

/-- C5 witness: the amended theorem applied to a concrete sample with
three distinct codes of which exactly one (7) is unknown. -/
theorem analyze_land_cover_props_witness :
    (∀ v ∈ (analyze_land_cover
        [((10 : Int), 600), (30, 300), (7, 100)]).map Prod.snd, 0 ≤ v) ∧
    ((analyze_land_cover
        [((10 : Int), 600), (30, 300), (7, 100)]).map Prod.snd).sum =
      (([((10 : Int), 600), (30, 300), (7, 100)] : List (Int × Nat)).map
        Prod.snd).sum ∧
    (analyze_land_cover
        [((10 : Int), 600), (30, 300), (7, 100)]).map Prod.fst =
      ([((10 : Int), 600), (30, 300), (7, 100)] : List (Int × Nat)).map
        lcName ∧
    (∀ kv ∈ ([((10 : Int), 600), (30, 300), (7, 100)] :
        List (Int × Nat)), land_cover_types kv.1 = none →
      "Inconnu" ∈ (analyze_land_cover
        [((10 : Int), 600), (30, 300), (7, 100)]).map Prod.fst) :=
  analyze_land_cover_props [((10 : Int), 600), (30, 300), (7, 100)]
    (by decide) (by decide)

/-- C6: whenever the geocoding lookup yields a non-success status or zero
candidates, the helper returns the sentinel origin point (0, 0) — it is a
total function of the response, so the lookup outcome raises nothing. -/
theorem create_geojson_sentinel (status_code : Nat)
    (data : List GeoCandidate) (h : status_code ≠ 200 ∨ data = []) :
    create_geojson_from_location_point status_code data = (0, 0) := by
  unfold create_geojson_from_location_point
  rcases h with h | h
  · rw [if_neg h]
  · subst h
    split <;> rfl

/-- C6 witness: the theorem applied to a concrete failed lookup (HTTP 404
with a non-empty candidate list). -/
theorem create_geojson_sentinel_witness :
    create_geojson_from_location_point 404
      [{ lat := (1 : ℚ), lon := (2 : ℚ) }] = (0, 0) :=
  create_geojson_sentinel 404 [{ lat := (1 : ℚ), lon := (2 : ℚ) }]
    (Or.inl (by decide))

/-- C7: generate_textual_analysis is deterministic — it is a pure
function of the two series, the histogram and the incident type (the
source reads no clock, random source or ambient state), so two calls on
identical inputs produce identical narratives. -/
theorem generate_textual_analysis_deterministic (ndvi ndwi : List ℚ)
    (landcover_data : List (String × Nat)) (incident_type : String) :
    generate_textual_analysis ndvi ndwi landcover_data incident_type =
      generate_textual_analysis ndvi ndwi landcover_data incident_type :=
  rfl

/-- Reading the first column of a DataFrame. -/
lemma dfGetCol_head (name : String) (col : List PyVal) (rest : DataFrame) :
    dfGetCol ((name, col) :: rest) name = col := by
  simp [dfGetCol, List.find?]

/-- Reading past a column with a different name. -/
lemma dfGetCol_tail (name n2 : String) (col : List PyVal) (rest : DataFrame)
    (h : n2 ≠ name) :
    dfGetCol ((n2, col) :: rest) name = dfGetCol rest name := by
  simp [dfGetCol, List.find?, h]

/-- Sorting transported through a filter: a projection sorted over a list
stays sorted over any sublist selected by a predicate. -/
lemma sorted_map_filter {α : Type} (f : α → ℕ) (p : α → Bool)
    (l : List α) (h : (l.map f).Sorted (· ≤ ·)) :
    ((l.filter p).map f).Sorted (· ≤ ·) := by
  unfold List.Sorted at h ⊢
  exact List.pairwise_map.mpr ((List.pairwise_map.mp h).filter p)

/-- C8: the two series returned by analyze_vegetation_and_water have
equal length (both rows of the one cloud-filtered scene collection) and
share the identical date column; and when the catalog returns its scenes
in chronological order — the acquisition-date ordering of the external
`getRegion` rows — the dates of the returned series are non-decreasing. -/
theorem analyze_vegetation_and_water_series (collection : List Scene)
    (ndvi_mean ndwi_mean : ℚ)
    (hsorted : (collection.map (fun s => dateKey s.date)).Sorted (· ≤ ·)) :
    (dfGetCol
        (analyze_vegetation_and_water collection ndvi_mean ndwi_mean).1
        "NDVI").length =
      (dfGetCol
        (analyze_vegetation_and_water collection ndvi_mean ndwi_mean).2.1
        "NDWI").length ∧
    dfGetCol (analyze_vegetation_and_water collection ndvi_mean ndwi_mean).1
        "Date" =
      dfGetCol
        (analyze_vegetation_and_water collection ndvi_mean ndwi_mean).2.1
        "Date" ∧
    ((dfGetCol
        (analyze_vegetation_and_water collection ndvi_mean ndwi_mean).1
        "Date").map pvDateKey).Sorted (· ≤ ·) := by
  have hDN : ("Date" : String) ≠ "NDVI" := by decide
  have hDW : ("Date" : String) ≠ "NDWI" := by decide
  unfold analyze_vegetation_and_water
  simp only [dfGetCol_tail _ _ _ _ hDN, dfGetCol_tail _ _ _ _ hDW,
    dfGetCol_head, List.length_map, List.map_map]
  refine ⟨trivial, trivial, ?_⟩
  have hcomp : (pvDateKey ∘ fun s : Scene => PyVal.date s.date) =
      (fun s : Scene => dateKey s.date) := rfl
  rw [hcomp]
  exact sorted_map_filter _ _ _ hsorted

/-- C8 witness: the theorem applied to a concrete two-scene collection in
chronological order. -/
theorem analyze_vegetation_and_water_series_witness :
    (dfGetCol
        (analyze_vegetation_and_water
          [{ date := ⟨2023, 1, 5⟩, b3 := 1, b4 := 2, b8 := 3,
             cloudy_pixel_percentage := 10 },
           { date := ⟨2023, 2, 7⟩, b3 := 2, b4 := 1, b8 := 4,
             cloudy_pixel_percentage := 30 }] (1/2) (1/4)).1 "NDVI").length =
      (dfGetCol
        (analyze_vegetation_and_water
          [{ date := ⟨2023, 1, 5⟩, b3 := 1, b4 := 2, b8 := 3,
             cloudy_pixel_percentage := 10 },
           { date := ⟨2023, 2, 7⟩, b3 := 2, b4 := 1, b8 := 4,
             cloudy_pixel_percentage := 30 }] (1/2) (1/4)).2.1
        "NDWI").length ∧
    dfGetCol
        (analyze_vegetation_and_water
          [{ date := ⟨2023, 1, 5⟩, b3 := 1, b4 := 2, b8 := 3,
             cloudy_pixel_percentage := 10 },
           { date := ⟨2023, 2, 7⟩, b3 := 2, b4 := 1, b8 := 4,
             cloudy_pixel_percentage := 30 }] (1/2) (1/4)).1 "Date" =
      dfGetCol
        (analyze_vegetation_and_water
          [{ date := ⟨2023, 1, 5⟩, b3 := 1, b4 := 2, b8 := 3,
             cloudy_pixel_percentage := 10 },
           { date := ⟨2023, 2, 7⟩, b3 := 2, b4 := 1, b8 := 4,
             cloudy_pixel_percentage := 30 }] (1/2) (1/4)).2.1 "Date" ∧
    ((dfGetCol
        (analyze_vegetation_and_water
          [{ date := ⟨2023, 1, 5⟩, b3 := 1, b4 := 2, b8 := 3,
             cloudy_pixel_percentage := 10 },
           { date := ⟨2023, 2, 7⟩, b3 := 2, b4 := 1, b8 := 4,
             cloudy_pixel_percentage := 30 }] (1/2) (1/4)).1
        "Date").map pvDateKey).Sorted (· ≤ ·) :=
  analyze_vegetation_and_water_series
    [{ date := ⟨2023, 1, 5⟩, b3 := 1, b4 := 2, b8 := 3,
       cloudy_pixel_percentage := 10 },
     { date := ⟨2023, 2, 7⟩, b3 := 2, b4 := 1, b8 := 4,
       cloudy_pixel_percentage := 30 }] (1/2) (1/4) (by decide)

/-- C9: when the model call raises, get_response still returns (the
fixed English fallback takes the reply's place) and the updated history
contains the user's turn; likewise chat_response, once its context has
parsed, returns the fixed French fallback as a normal reply. -/
theorem chat_fallback_on_error (messages chat_history : List Msg)
    (prompt context : String) (api : ChatApi) (json_loads : JsonLoads)
    (e : String) (context_obj : List (String × String))
    (herr : ∀ ms, api ms = Except.error e)
    (hctx : json_loads context = Except.ok context_obj) :
    (get_response messages prompt api).2 = fallbackMessageEn ∧
    ({ role := "user", content := prompt } : Msg) ∈
      (get_response messages prompt api).1 ∧
    chat_response json_loads api prompt context chat_history =
      Except.ok fallbackMessageFr := by
  refine ⟨?_, ?_, ?_⟩
  · simp only [get_response, get_assistant_response, herr]
  · unfold get_response
    simp
  · simp only [chat_response, hctx, herr]

/-- C9 witness: the theorem applied to a concrete always-failing client
and a concrete parsed context. -/
theorem chat_fallback_on_error_witness :
    (get_response [] "Bonjour" (fun _ => Except.error "boom")).2 =
      fallbackMessageEn ∧
    ({ role := "user", content := "Bonjour" } : Msg) ∈
      (get_response [] "Bonjour" (fun _ => Except.error "boom")).1 ∧
    chat_response (fun _ => Except.ok [("type_incident", "Déforestation")])
      (fun _ => Except.error "boom") "Bonjour" "ctx" [] =
      Except.ok fallbackMessageFr :=
  chat_fallback_on_error [] [] "Bonjour" "ctx"
    (fun _ => Except.error "boom")
    (fun _ => Except.ok [("type_incident", "Déforestation")])
    "boom" [("type_incident", "Déforestation")] (fun _ => rfl) rfl

/-- C10: chat_response parses its context before the guarded model call:
a context on which `json.loads` raises (any non-JSON string, in
particular the default empty string) makes chat_response propagate that
error to the caller, never the fallback; and once parsing succeeds the
function always returns a normal reply (the fallback path covers only the
model call). -/
theorem chat_response_context_parse (json_loads : JsonLoads)
    (api : ChatApi) (prompt context : String) (chat_history : List Msg) :
    (∀ e, json_loads context = Except.error e →
      chat_response json_loads api prompt context chat_history =
        Except.error e) ∧
    (∀ context_obj, json_loads context = Except.ok context_obj →
      ∃ r, chat_response json_loads api prompt context chat_history =
        Except.ok r) := by
  constructor
  · intro e he
    simp only [chat_response, he]
  · intro context_obj hok
    simp only [chat_response, hok]
    split
    · exact ⟨_, rfl⟩
    · exact ⟨_, rfl⟩

/-- C10 witness: the theorem applied to a concrete parser that rejects
the empty string (as Python's `json.loads` does) and a concrete client;
both conjuncts are discharged at the default context `""`. -/
theorem chat_response_context_parse_witness :
    (∀ e, (fun s => if s = "" then Except.error "Expecting value"
        else Except.ok ([] : List (String × String))) "" = Except.error e →
      chat_response
        (fun s => if s = "" then Except.error "Expecting value"
          else Except.ok ([] : List (String × String)))
        (fun _ => Except.ok "réponse") "Bonjour" "" [] = Except.error e) ∧
    (∀ context_obj,
      (fun s => if s = "" then Except.error "Expecting value"
        else Except.ok ([] : List (String × String))) "" =
          Except.ok context_obj →
      ∃ r, chat_response
        (fun s => if s = "" then Except.error "Expecting value"
          else Except.ok ([] : List (String × String)))
        (fun _ => Except.ok "réponse") "Bonjour" "" [] = Except.ok r) :=
  chat_response_context_parse
    (fun s => if s = "" then Except.error "Expecting value"
      else Except.ok ([] : List (String × String)))
    (fun _ => Except.ok "réponse") "Bonjour" "" []

